import Mathlib

/-!
Verification of the OpenVPN interface configuration pipeline
(`src/conf_mode/interfaces-openvpn.py`): the validation engine (`verify`,
`verify_pki`), the artifact generator (`generate`, `generate_pki_files`) and
the lifecycle applier (`apply`), embedded shallowly.

Modelling conventions:
  * The normalized configuration dictionary delivered by the external loader
    is the structure `OpenvpnConfig`; a missing dictionary key is `none` /
    an empty list, a present key is `some`.  An absent key and a present but
    empty ("falsy") value are identified wherever the program only tests
    truthiness.
  * Python exceptions are the inductive `VErr`: `configError` is the
    user-facing `ConfigError`, while `keyError`, `valueError`, `indexError`
    and `typeError` are internal exceptions the top-level handler does not
    catch.
  * External collaborators (address-assignment probe, VRF verifier,
    bridge-delete verifier, the random TOTP secret generator) are supplied
    by an `Env` record; the persistent TOTP credential file is the state
    `TotpFS` threaded through `verify`.
  * Print-only advisories (in-pool warnings, EC/DH notice, cipher "none"
    notice) have no observable effect on accept/reject or on state and are
    not modelled.
-/

set_option maxHeartbeats 1000000

namespace Openvpn

/-- Errors raised by the pipeline.  `configError` models `vyos.ConfigError`
(the only exception caught by the `__main__` handler); the remaining
constructors model uncaught Python exceptions. -/
inductive VErr where
  | configError (msg : String)
  | keyError (key : String)
  | valueError (what : String)
  | indexError (what : String)
  | typeError (what : String)
deriving DecidableEq

/-- Shorthand used by the checks below for raising a `ConfigError`. -/
def rejectMsg (m : String) : Option VErr := some (VErr.configError m)

/-! ### IPv4 / IPv6 literal handling (`ipaddress`, `vyos.template`) -/

/-- Split a character list on a separator, keeping empty segments, like
Python `str.split`. -/
def splitOnChar (c : Char) : List Char → List (List Char)
  | [] => [[]]
  | x :: xs =>
    let r := splitOnChar c xs
    if x == c then [] :: r
    else
      match r with
      | h :: t => (x :: h) :: t
      | [] => [[x]]

/-- Parse a non-empty all-digit character list as a natural number. -/
def digitsToNat (l : List Char) : Option Nat :=
  if l.isEmpty then none
  else l.foldl (fun acc? c =>
    acc?.bind (fun acc => if c.isDigit then some (acc * 10 + (c.toNat - 48)) else none))
    (some 0)

/-- Parse a dotted-quad IPv4 address literal to its numeric value, as
`int(IPv4Address(s))` would. -/
def parseIPv4L (l : List Char) : Option Nat :=
  match (splitOnChar ('.') l).map digitsToNat with
  | [some a, some b, some c, some d] =>
    if a ≤ 255 && b ≤ 255 && c ≤ 255 && d ≤ 255 then
      some (((a * 256 + b) * 256 + c) * 256 + d)
    else none
  | _ => none

/-- String version of `parseIPv4L`. -/
def parseIPv4 (s : String) : Option Nat := parseIPv4L s.data

/-- `vyos.template.is_ipv4`: the literal (address, optionally with a
prefix length) parses as IPv4. -/
def is_ipv4 (s : String) : Bool :=
  match splitOnChar ('/') s.data with
  | [a] => (parseIPv4L a).isSome
  | [a, p] =>
    (parseIPv4L a).isSome &&
      (match digitsToNat p with
       | some n => n ≤ 32
       | none => false)
  | _ => false

/-- `vyos.template.is_ipv6`.  Address literals are assumed well-formed
(the external loader normalizes them), where the colon test coincides with
the `ipaddress`-based check. -/
def is_ipv6 (s : String) : Bool := s.data.contains (':')

/-- `IPv4Network(s)` with the default `strict=True`: network address and
prefix length, `none` when the literal is malformed or has host bits set
(Python raises `ValueError` there). -/
def ipv4NetworkStrict (s : String) : Option (Nat × Nat) :=
  match splitOnChar ('/') s.data with
  | [a] => (parseIPv4L a).map (fun n => (n, 32))
  | [a, p] =>
    match parseIPv4L a, digitsToNat p with
    | some base, some plen =>
      if plen ≤ 32 && base % 2 ^ (32 - plen) == 0 then some (base, plen) else none
    | _, _ => none
  | _ => none

/-- Dotted-quad rendering of a numeric IPv4 address (`str(IPv4Address(n))`),
used inside error messages. -/
def ipv4Str (n : Nat) : String :=
  toString (n / 16777216 % 256) ++ "." ++ toString (n / 65536 % 256) ++ "." ++
    toString (n / 256 % 256) ++ "." ++ toString (n % 256)

/-- `IPv4Address(a) in subnet` (line 310): both addresses agree above the
host bits.  Returns `none` when either literal is malformed. -/
def ipv4InSubnet (a net : String) : Option Bool :=
  match parseIPv4 a, ipv4NetworkStrict net with
  | some x, some n => some (x / 2 ^ (32 - n.2) == n.1 / 2 ^ (32 - n.2))
  | _, _ => none

/-! ### Data model -/

/-- One entry of the `local_address` dictionary: the address string keys a
small attribute record (only the `subnet_mask` presence is read). -/
structure LocalAddr where
  addr : String
  subnet_mask : Bool := false
deriving DecidableEq

/-- One `server client` record (keyed by client name in `ServerBlock`).
`server_subnet` is never present in loader output; the generator injects it
(line 623). -/
structure ClientRecord where
  ip : List String := []
  ipv6_ip : List String := []
  server_subnet : Option (List String) := none
deriving DecidableEq

/-- `server client-ip-pool` bounds. -/
structure ClientIpPool where
  start : Option String := none
  stop : Option String := none
deriving DecidableEq

/-- The `server` sub-record.  `totp` is `server.2fa.totp`. -/
structure ServerBlock where
  subnet : List String := []
  client : List (String × ClientRecord) := []
  client_ip_pool : Option ClientIpPool := none
  reject_unconfigured_clients : Bool := false
  totp : Bool := false
deriving DecidableEq

/-- The `tls` sub-record.  `crl` and `private_key` are presence flags set
only by the generator (lines 524, 545). -/
structure TlsBlock where
  ca_certificate : Option String := none
  certificate : Option String := none
  dh_params : Option String := none
  auth_key : Option String := none
  crypt_key : Option String := none
  role : Option String := none
  crl : Bool := false
  private_key : Bool := false
deriving DecidableEq

/-- `authentication` sub-record. -/
structure Auth where
  username : Option String := none
  password : Option String := none
deriving DecidableEq

/-- `encryption` sub-record. -/
structure Encryption where
  cipher : Option String := none
  ncp_ciphers : List String := []
deriving DecidableEq

/-- A CA entry of the PKI snapshot: `pki['ca'][name]`. -/
structure PkiCa where
  certificate : Option String := none
  crl : List String := []
deriving DecidableEq

/-- A certificate entry of the PKI snapshot: `pki['certificate'][name]`.
`key_is_ec` models `isinstance(load_private_key(...), EllipticCurvePrivateKey)`
and `password_protected` the `private.password_protected` flag; the
cryptography library is external and its verdicts are carried as data. -/
structure PkiCert where
  certificate : Option String := none
  private_key : Option String := none
  password_protected : Bool := false
  key_is_ec : Bool := false
deriving DecidableEq

/-- A DH-parameter entry: `pki['dh'][name]`.  `p_bit_length` carries
`load_dh_parameters(parameters).parameter_numbers().p.bit_length()`. -/
structure PkiDh where
  parameters : Option String := none
  p_bit_length : Nat := 0
deriving DecidableEq

/-- An OpenVPN shared-secret entry: `pki['openvpn']['shared_secret'][name]`. -/
structure PkiKey where
  key : Option String := none
deriving DecidableEq

/-- The PKI snapshot.  A section absent from the snapshot dictionary and a
present-but-empty section are identified; the program distinguishes them
only on paths that would raise `KeyError` (raw `pki['ca']` access with no
CA section at all), which no claim touches. -/
structure Pki where
  ca : List (String × PkiCa) := []
  certificate : List (String × PkiCert) := []
  dh : List (String × PkiDh) := []
  shared_secret : List (String × PkiKey) := []
deriving DecidableEq

/-- `if not pki:` — the snapshot dictionary is empty. -/
def Pki.isEmptyDict (p : Pki) : Bool :=
  p.ca.isEmpty && p.certificate.isEmpty && p.dh.isEmpty && p.shared_secret.isEmpty

/-- The normalized per-interface configuration record produced by
`get_config`.  Note there is no top-level `client` and no top-level
`client_ipv6_pool` field: in the configuration tree those live underneath
`server`, so `dict_search('client', openvpn)` and
`dict_search('client_ipv6_pool.base', openvpn)` always return `None`. -/
structure OpenvpnConfig where
  ifname : String := "vtun0"
  deleted : Bool := false
  disable : Bool := false
  mode : Option String := none
  protocol : String := "udp"
  device_type : String := "tun"
  local_host : Option String := none
  local_port : Option String := none
  remote_host : Option String := none
  remote_port : Option String := none
  local_address : Option (List LocalAddr) := none
  remote_address : Option (List String) := none
  is_bridge_member : Bool := false
  replace_default_route : Bool := false
  shared_secret_key : Option String := none
  tls : Option TlsBlock := none
  server : Option ServerBlock := none
  authentication : Option Auth := none
  encryption : Option Encryption := none
  pki : Pki := {}
deriving DecidableEq

/-- `dict_search('server.subnet', openvpn) or []`. -/
def serverSubnets (cfg : OpenvpnConfig) : List String :=
  match cfg.server with
  | some s => s.subnet
  | none => []

/-- `dict_search('server.client', openvpn) or []` (association list keyed by
client name). -/
def serverClients (cfg : OpenvpnConfig) : List (String × ClientRecord) :=
  match cfg.server with
  | some s => s.client
  | none => []

/-- `dict_search('server.2fa.totp', openvpn)` truthiness. -/
def serverTotpEnabled (cfg : OpenvpnConfig) : Bool :=
  match cfg.server with
  | some s => s.totp
  | none => false

/-- `dict_search('tls.dh_params', openvpn)`. -/
def tlsDhParams (cfg : OpenvpnConfig) : Option String :=
  cfg.tls.bind (fun t => t.dh_params)

/-- `dict_search('encryption.ncp_ciphers', openvpn)` truthiness. -/
def ncpCiphersPresent (cfg : OpenvpnConfig) : Bool :=
  match cfg.encryption with
  | some e => !e.ncp_ciphers.isEmpty
  | none => false

/-- `dict_search('encryption.cipher', openvpn) in ['aes128gcm', 'aes192gcm',
'aes256gcm']` (line 428). -/
def gcmCipherUsed (cfg : OpenvpnConfig) : Bool :=
  match cfg.encryption with
  | some e =>
    match e.cipher with
    | some c => ["aes128gcm", "aes192gcm", "aes256gcm"].contains c
    | none => false
  | none => false

/-! ### External environment and persistent state -/

/-- External collaborators.  `addrAssigned` is `vyos.validate.is_addr_assigned`;
`bridgeDelete` and `vrf` carry the verdicts of the external
`verify_bridge_delete` / `verify_vrf` checks (`none` = pass); `totpSecret k`
is the k-th freshly generated 16-character TOTP secret of the run
(`SystemRandom` is external nondeterminism, supplied as an oracle). -/
structure Env where
  addrAssigned : String → Bool := fun _ => false
  totpSecret : Nat → String := fun _ => "BBBBBBBBBBBBBBBB"
  bridgeDelete : Option String := none
  vrf : Option String := none

/-- The concrete environment used by the closed runs below. -/
def defaultEnv : Env := {}

/-- The alphabet from which TOTP secrets are drawn (line 67). -/
def secret_chars : List Char := "ABCDEFGHIJKLMNOPQRSTUVWXYZ234567".data

/-- Contents of the per-interface TOTP credential file
(`/config/auth/openvpn/<ifname>-otp-secrets`): `none` when the file does not
exist, otherwise its lines (newline-terminated, as `readlines` yields). -/
abbrev TotpFS := Option (List String)

/-- One line of the TOTP user database (line 387 format string). -/
def totpLine (client secret : String) : String :=
  client ++ " otp totp:sha1:base32:" ++ secret ++ "::xxx *\n"

/-- Line 380: `re.search('^' + client + ' ', user)`.  The pattern is matched
against the module-level constant `user = 'openvpn'`, not against the file
line `ovpn_user`; with literal (alphanumeric) client names the anchored
search is a prefix test against the string "openvpn". -/
def totpMatchesBuggy (client : String) : Bool :=
  (client ++ " ").data.isPrefixOf ("openvpn").data

/-- The per-client body of the reconciliation loop (lines 377-387): the
accumulator is the scratch buffer `fp` plus the count of secrets generated
so far. -/
def totpStep (env : Env) (lines0 : List String) (acc : List String × Nat)
    (client : String) : List String × Nat :=
  let kept := lines0.filter (fun _ovpn_user => totpMatchesBuggy client)
  if kept.isEmpty then
    (acc.1 ++ [totpLine client (env.totpSecret acc.2)], acc.2 + 1)
  else (acc.1 ++ kept, acc.2)

/-- Lines 369-395: when `server.2fa.totp` is enabled the credential file is
created if missing, reconciled against the current client list in a scratch
buffer, and fully rewritten from that buffer. -/
def totpUpdate (env : Env) (cfg : OpenvpnConfig) (fs : TotpFS) : TotpFS :=
  if serverTotpEnabled cfg then
    let lines0 := fs.getD []
    let clients := (serverClients cfg).map (fun kv => kv.1)
    some ((clients.foldl (totpStep env lines0) ([], 0)).1)
  else fs

/-! ### Validation engine (`verify`, lines 178-480) -/

/-- First of `a`, `b` that is an error — Python's first-raise sequencing for
two independent check blocks. -/
def orE (a b : Option VErr) : Option VErr :=
  match a with
  | some e => some e
  | none => b

/-- Client-mode constraints (lines 189-203). -/
def verifyClientMode (cfg : OpenvpnConfig) : Option VErr :=
  if cfg.local_port.isSome then rejectMsg ("Cannot specify \"local-port\" in client mode")
  else if cfg.local_host.isSome then rejectMsg ("Cannot specify \"local-host\" in client mode")
  else if cfg.remote_host.isNone then rejectMsg ("Must specify \"remote-host\" in client mode")
  else if cfg.protocol == "tcp-passive" then
    rejectMsg ("Protocol \"tcp-passive\" is not valid in client mode")
  else if (tlsDhParams cfg).isSome then
    rejectMsg ("Cannot specify \"tls dh-params\" in client mode")
  else none

/-- Site-to-site constraints (lines 208-267).  Note that after the
local-address-or-bridge check, line 212 iterates `openvpn['local_address']`
unguarded: a bridge member with no local address raises `KeyError`. -/
def verifySiteToSite (cfg : OpenvpnConfig) : Option VErr :=
  if cfg.local_address.isNone && !cfg.is_bridge_member then
    rejectMsg ("Must specify \"local-address\" or add interface to bridge")
  else
    match cfg.local_address with
    | none => some (VErr.keyError ("local_address"))
    | some la =>
      let laddrs := la.map (fun e => e.addr)
      if (laddrs.filter is_ipv4).length > 1 then
        rejectMsg ("Only one IPv4 local-address can be specified")
      else if (laddrs.filter is_ipv6).length > 1 then
        rejectMsg ("Only one IPv6 local-address can be specified")
      else if cfg.device_type == "tun" && cfg.remote_address.isNone then
        rejectMsg ("Must specify \"remote-address\"")
      else
        let remErr :=
          match cfg.remote_address with
          | none => none
          | some ra =>
            if (ra.filter is_ipv4).length > 1 then
              rejectMsg ("Only one IPv4 remote-address can be specified")
            else if (ra.filter is_ipv6).length > 1 then
              rejectMsg ("Only one IPv6 remote-address can be specified")
            else
              -- line 229's `'local_address' not in openvpn` re-check is
              -- unreachable here: this branch is only entered with
              -- local_address present
              let v4lo := laddrs.filter is_ipv4
              let v4rem := ra.filter is_ipv4
              if !v4lo.isEmpty && v4rem.isEmpty then
                rejectMsg ("IPv4 \"local-address\" requires IPv4 \"remote-address\"")
              else if !v4rem.isEmpty && v4lo.isEmpty then
                rejectMsg ("IPv4 \"remote-address\" requires IPv4 \"local-address\"")
              else
                let v6rem := ra.filter is_ipv6
                let v6lo := laddrs.filter is_ipv6
                if !v6lo.isEmpty && v6rem.isEmpty then
                  rejectMsg ("IPv6 \"local-address\" requires IPv6 \"remote-address\"")
                else if !v6rem.isEmpty && v6lo.isEmpty then
                  rejectMsg ("IPv6 \"remote-address\" requires IPv6 \"local-address\"")
                else if (v4lo == v4rem) || (v6rem == v4rem) then
                  -- line 246 compares v6remAddr with v4remAddr, as written
                  rejectMsg ("\"local-address\" and \"remote-address\" cannot be the same")
                else if (match cfg.local_host with
                         | some h => laddrs.contains h
                         | none => false) then
                  rejectMsg ("\"local-address\" cannot be the same as \"local-host\"")
                else if (match cfg.remote_host with
                         | some h => ra.contains h
                         | none => false) then
                  rejectMsg ("\"remote-address\" and \"remote-host\" can not be the same")
                else none
        match remErr with
        | some e => some e
        | none =>
          let tapErr :=
            if cfg.device_type == "tap" then
              match la.find? (fun e => is_ipv4 e.addr) with
              | some e => if !e.subnet_mask then
                  rejectMsg ("Must specify IPv4 \"subnet-mask\" for local-address")
                else none
              | none => none
            else none
          match tapErr with
          | some e => some e
          | none =>
            if ncpCiphersPresent cfg then
              rejectMsg ("NCP ciphers can only be used in client or server mode")
            else none

/-- Lines 269-273: checks for client-server or site-to-site bridged modes
(the `else` arm of the mode chain, covering server mode too). -/
def verifyOtherModes (cfg : OpenvpnConfig) : Option VErr :=
  if cfg.local_address.isSome || cfg.remote_address.isSome then
    rejectMsg ("Cannot specify \"local-address\" or \"remote-address\" in client/server or bridge mode")
  else none

/-- Per-subnet body of the server-subnet loop (lines 300-311).  The inner
client-containment loop iterates `dict_search('client', openvpn)`; the
interface dictionary has no top-level `client` key (clients live under
`server.client`), so that loop body never runs and no client address is
ever checked against the subnet here. -/
def checkOneServerSubnet (cfg : OpenvpnConfig) (s : String) : Option VErr :=
  if is_ipv4 s then
    match ipv4NetworkStrict s with
    | none => some (VErr.valueError s)
    | some net =>
      if cfg.device_type == "tun" && net.2 > 29 then
        rejectMsg ("Server subnets smaller than /29 with device type \"tun\" are not supported")
      else if cfg.device_type == "tap" && net.2 > 30 then
        rejectMsg ("Server subnets smaller than /30 with device type \"tap\" are not supported")
      else none
  else none

/-- Per-client address-count check (lines 317-320). -/
def checkServerClients (clients : List (String × ClientRecord)) : Option VErr :=
  clients.findSome? (fun kv =>
    if kv.2.ip.length > 1 || kv.2.ipv6_ip.length > 1 then
      rejectMsg ("Server client \"" ++ kv.1 ++ "\": cannot specify more than 1 IPv4 and 1 IPv6 IP")
    else none)

/-- `server client-ip-pool` validation (lines 322-333); on success returns
`v4PoolSize = int(stop) - int(start)` (line 331).  The in-pool warning loop
(lines 335-340) only prints and iterates the always-absent top-level
`client` key, so it has no observable effect. -/
def checkClientIpPool (pool? : Option ClientIpPool) : Except VErr (Option Nat) :=
  match pool? with
  | none => Except.ok none
  | some pool =>
    match pool.start, pool.stop with
    | some st, some sp =>
      match parseIPv4 st, parseIPv4 sp with
      | some a, some b =>
        if a > b then
          Except.error (VErr.configError
            ("Server client-ip-pool start address " ++ ipv4Str a ++
              " is larger than stop address " ++ ipv4Str b))
        else
          let size := b - a
          if size ≥ 65536 then
            Except.error (VErr.configError
              ("Server client-ip-pool is too large [" ++ ipv4Str a ++ " -> " ++
                ipv4Str b ++ " = " ++ toString size ++ "], maximum is 65536 addresses."))
          else Except.ok (some size)
      | _, _ => Except.error (VErr.valueError ("IPv4Address"))
    | _, _ =>
      Except.error (VErr.configError
        ("Server client-ip-pool requires both start and stop addresses"))

/-- Body of the IPv6-pool block (lines 344-366), parameterised by
`dict_search('client_ipv6_pool.base', openvpn)` — which is always `None`,
since the interface dictionary has no top-level `client_ipv6_pool` key.
Were the base ever present, the block could not complete normally: with no
'/' in the base, `tmp.split('/')[1]` raises `IndexError`; with one, after
the `/112` check `IPv6Address(tmp)` (line 355) raises `ValueError` because
the literal still carries its prefix length. -/
def checkIPv6Pool (cfg : OpenvpnConfig) (base? : Option String) : Option VErr :=
  match base? with
  | none => none
  | some tmp =>
    if (cfg.server.bind (fun s => s.client_ip_pool)).isNone then
      rejectMsg ("IPv6 server pool requires an IPv4 server pool")
    else
      match splitOnChar ('/') tmp.data with
      | _ :: p :: _ =>
        match digitsToNat p with
        | none => some (VErr.valueError (String.mk p))
        | some plen =>
          if plen ≥ 112 then rejectMsg ("IPv6 server pool must be larger than /112")
          else some (VErr.valueError tmp)
      | _ => some (VErr.indexError ("list index out of range"))

/-- Server-mode constraint group (lines 278-366 without the TOTP side
effect), in source order. -/
def verifyServerPure (cfg : OpenvpnConfig) : Option VErr :=
  if cfg.protocol == "tcp-active" then
    rejectMsg ("Protocol \"tcp-active\" is not valid in server mode")
  else if cfg.remote_port.isSome then
    rejectMsg ("Cannot specify \"remote-port\" in server mode")
  else if cfg.remote_host.isSome then
    rejectMsg ("Cannot specify \"remote-host\" in server mode")
  else
    let subnets := serverSubnets cfg
    let subnetErr :=
      if !subnets.isEmpty then
        let v4c := (subnets.filter is_ipv4).length
        let v6c := (subnets.filter is_ipv6).length
        if v4c > 1 then rejectMsg ("Cannot specify more than 1 IPv4 server subnet")
        else if v6c > 1 then rejectMsg ("Cannot specify more than 1 IPv6 server subnet")
        else if v6c > 0 && v4c == 0 then
          rejectMsg ("IPv6 server requires an IPv4 server subnet")
        else subnets.findSome? (checkOneServerSubnet cfg)
      else if !cfg.is_bridge_member then
        rejectMsg ("Must specify \"server subnet\" or add interface to bridge in server mode")
      else none
    match subnetErr with
    | some e => some e
    | none =>
      match checkServerClients (serverClients cfg) with
      | some e => some e
      | none =>
        match checkClientIpPool (cfg.server.bind (fun s => s.client_ip_pool)) with
        | Except.error e => some e
        | Except.ok _v4PoolSize =>
          subnets.findSome? (fun s =>
            if is_ipv6 s then checkIPv6Pool cfg none else none)

/-- Non-server restrictions (lines 397-403, the `else` arm of the server
block). -/
def verifyNonServer (cfg : OpenvpnConfig) : Option VErr :=
  if (match cfg.server with
      | some s => s.reject_unconfigured_clients
      | none => false) then
    rejectMsg ("Option reject-unconfigured-clients only supported in server mode")
  else if cfg.replace_default_route && cfg.remote_host.isNone then
    rejectMsg ("Cannot set \"replace-default-route\" without \"remote-host\"")
  else none

/-- `is_ec_private_key` (lines 94-105); the cryptography-library verdict is
carried in the snapshot as `key_is_ec`. -/
def is_ec_private_key (pki : Pki) (cert_name : String) : Bool :=
  if pki.isEmptyDict then false
  else
    match pki.certificate.lookup cert_name with
    | none => false
    | some c =>
      match c.private_key with
      | none => false
      | some _ => c.key_is_ec

/-- TLS part of `verify_pki` (lines 130-176). -/
def verifyPkiTls (cfg : OpenvpnConfig) (t : TlsBlock) : Option VErr :=
  let pki := cfg.pki
  let interface := cfg.ifname
  match t.ca_certificate with
  | none => rejectMsg ("Must specify \"tls ca-certificate\" on openvpn interface " ++ interface)
  | some caName =>
    if (pki.ca.lookup caName).isNone then
      rejectMsg ("Invalid CA certificate on openvpn interface " ++ interface)
    else if !(cfg.mode == some ("client") && t.auth_key.isSome) && t.certificate.isNone then
      rejectMsg ("Missing \"tls certificate\" on openvpn interface " ++ interface)
    else
      let certErr :=
        match t.certificate with
        | none => none
        | some cName =>
          match pki.certificate.lookup cName with
          | none => rejectMsg ("Invalid certificate on openvpn interface " ++ interface)
          | some c =>
            if c.password_protected then
              rejectMsg ("Cannot use encrypted private key on openvpn interface " ++ interface)
            else if cfg.mode == some ("server") && t.dh_params.isNone &&
                !is_ec_private_key pki cName then
              rejectMsg ("Must specify \"tls dh-params\" when not using EC keys in server mode")
            else none
      match certErr with
      | some e => some e
      | none =>
        let dhErr :=
          match t.dh_params with
          | none => none
          | some d =>
            if pki.dh.isEmpty then
              rejectMsg ("There are no DH parameters in PKI configuration")
            else
              match pki.dh.lookup d with
              | none => rejectMsg ("Invalid dh-params on openvpn interface " ++ interface)
              | some entry =>
                match entry.parameters with
                | none => some (VErr.keyError ("parameters"))
                | some _ =>
                  if entry.p_bit_length < 2048 then
                    rejectMsg ("Minimum DH key-size is 2048 bits")
                  else none
        match dhErr with
        | some e => some e
        | none =>
          let storeErr :=
            if (t.auth_key.isSome || t.crypt_key.isSome) && pki.shared_secret.isEmpty then
              rejectMsg ("There are no openvpn shared-secrets in PKI configuration")
            else none
          match storeErr with
          | some e => some e
          | none =>
            let authErr :=
              match t.auth_key with
              | some k =>
                if (pki.shared_secret.lookup k).isNone then
                  rejectMsg ("Invalid auth-key on openvpn interface " ++ interface)
                else none
              | none => none
            match authErr with
            | some e => some e
            | none =>
              match t.crypt_key with
              | some k =>
                if (pki.shared_secret.lookup k).isNone then
                  rejectMsg ("Invalid crypt-key on openvpn interface " ++ interface)
                else none
              | none => none

/-- `verify_pki` (lines 107-176). -/
def verify_pki (cfg : OpenvpnConfig) : Option VErr :=
  let shared := cfg.shared_secret_key
  let tls := cfg.tls
  if shared.isSome == tls.isSome then
    -- `not bool(shared) ^ bool(tls)` — fails when both or neither are set
    rejectMsg ("Must specify only one of \"shared-secret-key\" and \"tls\"")
  else if (cfg.mode == some ("server") || cfg.mode == some ("client")) && tls.isNone then
    rejectMsg ("Must specify \"tls\" for server and client modes")
  else if cfg.pki.isEmptyDict then
    rejectMsg ("PKI is not configured")
  else
    let sharedErr :=
      match shared with
      | some k =>
        if cfg.pki.shared_secret.isEmpty then
          rejectMsg ("There are no openvpn shared-secrets in PKI configuration")
        else if (cfg.pki.shared_secret.lookup k).isNone then
          rejectMsg ("Invalid shared-secret on openvpn interface " ++ cfg.ifname)
        else none
      | none => none
    match sharedErr with
    | some e => some e
    | none =>
      match tls with
      | none => none
      | some t => verifyPkiTls cfg t

/-- TLS checks of the common section (lines 431-453).  The EC-plus-DH
combination notice (lines 455-458) only prints. -/
def tlsChecks (cfg : OpenvpnConfig) (t : TlsBlock) : Option VErr :=
  if t.auth_key.isSome && t.crypt_key.isSome then
    rejectMsg ("TLS auth and crypt keys are mutually exclusive")
  else
    match t.role with
    | none => none
    | some r =>
      if (cfg.mode == some ("client") || cfg.mode == some ("server")) && t.auth_key.isNone then
        rejectMsg ("Cannot specify \"tls role\" in client-server mode")
      else if r == "active" then
        if cfg.protocol == "tcp-passive" then
          rejectMsg ("Cannot specify \"tcp-passive\" when \"tls role\" is \"active\"")
        else if t.dh_params.isSome then
          rejectMsg ("Cannot specify \"tls dh-params\" when \"tls role\" is \"active\"")
        else none
      else if r == "passive" then
        if cfg.protocol == "tcp-active" then
          rejectMsg ("Cannot specify \"tcp-active\" when \"tls role\" is \"passive\"")
        else if t.dh_params.isNone then
          rejectMsg ("Must specify \"tls dh-params\" when \"tls role\" is \"passive\"")
        else none
      else none

/-- Common verification section (lines 411-478): host reachability,
transport, shared-secret cipher sanity, TLS checks, PKI validation,
username/password pairing, VRF. -/
def verifyCommon (env : Env) (cfg : OpenvpnConfig) : Option VErr :=
  let localHostErr :=
    match cfg.local_host with
    | some lh =>
      if !(env.addrAssigned lh) then
        some (VErr.configError
          ("local-host IP address \"" ++ lh ++ "\" not assigned to any interface"))
      else none
    | none => none
  let tcpActiveErr :=
    if cfg.protocol == "tcp-active" then
      if cfg.local_port.isSome then
        rejectMsg ("Cannot specify \"local-port\" with \"tcp-active\"")
      else if cfg.remote_host.isNone then
        rejectMsg ("Must specify \"remote-host\" with \"tcp-active\"")
      else none
    else none
  let gcmErr :=
    if cfg.shared_secret_key.isSome && gcmCipherUsed cfg then
      rejectMsg ("GCM encryption with shared-secret-key not supported")
    else none
  let tlsErr :=
    match cfg.tls with
    | some t => tlsChecks cfg t
    | none => none
  let authErr :=
    match cfg.authentication with
    | some a =>
      if a.username.isSome && a.password.isNone then
        rejectMsg ("Password for authentication is missing")
      else if a.password.isSome && a.username.isNone then
        rejectMsg ("Username for authentication is missing")
      else none
    | none => none
  let vrfErr := env.vrf.map VErr.configError
  orE localHostErr (orE tcpActiveErr (orE gcmErr (orE tlsErr
    (orE (verify_pki cfg) (orE authErr vrfErr)))))

/-- `verify` (lines 178-480): the full validation engine, threading the
persistent TOTP credential file.  The TOTP reconciliation (lines 369-395)
runs inside the server-mode group, before the common section. -/
def verify (env : Env) (cfg : OpenvpnConfig) (fs : TotpFS) :
    Except VErr Unit × TotpFS :=
  if cfg.deleted then
    ((match env.bridgeDelete with
      | some m => Except.error (VErr.configError m)
      | none => Except.ok ()), fs)
  else
    match cfg.mode with
    | none => (Except.error (VErr.configError ("Must specify OpenVPN operation mode!")), fs)
    | some m =>
      let modeErr :=
        if m == "client" then verifyClientMode cfg
        else if m == "site-to-site" then verifySiteToSite cfg
        else verifyOtherModes cfg
      match modeErr with
      | some e => (Except.error e, fs)
      | none =>
        if m == "server" then
          match verifyServerPure cfg with
          | some e => (Except.error e, fs)
          | none =>
            let fs1 := totpUpdate env cfg fs
            match verifyCommon env cfg with
            | some e => (Except.error e, fs1)
            | none => (Except.ok (), fs1)
        else
          match verifyNonServer cfg with
          | some e => (Except.error e, fs)
          | none =>
            match verifyCommon env cfg with
            | some e => (Except.error e, fs)
            | none => (Except.ok (), fs)

/-! ### Artifact generator (`generate_pki_files`, `generate`, lines 482-637) -/

/-- What a generated file holds: the wrappers (`wrap_certificate` etc.) and
the template renderer are external; an artifact records which encoder was
applied to which raw material, or which template was rendered. -/
inductive FileContent where
  | openvpnKey (raw : String)
  | certificate (raw : String)
  | crl (raw : String)
  | privateKey (raw : String)
  | dhParameters (raw : String)
  | authUserPass
  | clientFragment (client : String)
  | mainConfig
deriving DecidableEq

/-- A written file: path (relative to the runtime directory) and content. -/
abbrev Artifact := String × FileContent

/-- Lines 494-501: the shared-secret key file.  `pki['openvpn']['shared_secret'][k]`
and `pki_key['key']` are raw accesses (uncaught `KeyError` when absent). -/
def sharedKeyFiles (cfg : OpenvpnConfig) : Except VErr (List Artifact) :=
  match cfg.shared_secret_key with
  | none => Except.ok []
  | some k =>
    match cfg.pki.shared_secret.lookup k with
    | none => Except.error (VErr.keyError k)
    | some e =>
      match e.key with
      | none => Except.error (VErr.keyError ("key"))
      | some raw => Except.ok [(cfg.ifname ++ "_shared.key", FileContent.openvpnKey raw)]

/-- Lines 504-524: CA certificate and CRLs.  Every CRL is written to the
same path `<ifname>_crl.pem` and the path is appended once per CRL, as the
source loop does; the returned flag is whether `tls.crl` gets set. -/
def caFiles (cfg : OpenvpnConfig) (t : TlsBlock) : Except VErr (List Artifact × Bool) :=
  match t.ca_certificate with
  | none => Except.ok ([], false)
  | some caName =>
    match cfg.pki.ca.lookup caName with
    | none => Except.error (VErr.keyError caName)
    | some pca =>
      let certArts :=
        match pca.certificate with
        | some c => [(cfg.ifname ++ "_ca.pem", FileContent.certificate c)]
        | none => []
      let crlArts := pca.crl.map (fun c => (cfg.ifname ++ "_crl.pem", FileContent.crl c))
      Except.ok (certArts ++ crlArts, !pca.crl.isEmpty)

/-- Lines 526-545: leaf certificate and private key; the returned flag is
whether `tls.private_key` gets set. -/
def certFiles (cfg : OpenvpnConfig) (t : TlsBlock) : Except VErr (List Artifact × Bool) :=
  match t.certificate with
  | none => Except.ok ([], false)
  | some cName =>
    match cfg.pki.certificate.lookup cName with
    | none => Except.error (VErr.keyError cName)
    | some pc =>
      let a1 :=
        match pc.certificate with
        | some c => [(cfg.ifname ++ "_cert.pem", FileContent.certificate c)]
        | none => []
      match pc.private_key with
      | some k => Except.ok (a1 ++ [(cfg.ifname ++ "_cert.key", FileContent.privateKey k)], true)
      | none => Except.ok (a1, false)

/-- Lines 547-557: DH parameters. -/
def dhFiles (cfg : OpenvpnConfig) (t : TlsBlock) : Except VErr (List Artifact) :=
  match t.dh_params with
  | none => Except.ok []
  | some d =>
    match cfg.pki.dh.lookup d with
    | none => Except.error (VErr.keyError d)
    | some pd =>
      match pd.parameters with
      | some raw => Except.ok [(cfg.ifname ++ "_dh.pem", FileContent.dhParameters raw)]
      | none => Except.ok []

/-- Lines 559-569: TLS auth key. -/
def authKeyFiles (cfg : OpenvpnConfig) (t : TlsBlock) : Except VErr (List Artifact) :=
  match t.auth_key with
  | none => Except.ok []
  | some k =>
    match cfg.pki.shared_secret.lookup k with
    | none => Except.error (VErr.keyError k)
    | some e =>
      match e.key with
      | some raw => Except.ok [(cfg.ifname ++ "_auth.key", FileContent.openvpnKey raw)]
      | none => Except.ok []

/-- Lines 571-581: TLS crypt key. -/
def cryptKeyFiles (cfg : OpenvpnConfig) (t : TlsBlock) : Except VErr (List Artifact) :=
  match t.crypt_key with
  | none => Except.ok []
  | some k =>
    match cfg.pki.shared_secret.lookup k with
    | none => Except.error (VErr.keyError k)
    | some e =>
      match e.key with
      | some raw => Except.ok [(cfg.ifname ++ "_crypt.key", FileContent.openvpnKey raw)]
      | none => Except.ok []

/-- `generate_pki_files` (lines 482-583): returns `None` when the PKI
snapshot is empty, otherwise the written files in source order together
with the configuration record updated in place (the `tls.crl` and
`tls.private_key` presence flags, lines 524 and 545). -/
def generate_pki_files (cfg : OpenvpnConfig) :
    Except VErr (Option (OpenvpnConfig × List Artifact)) :=
  if cfg.pki.isEmptyDict then Except.ok none
  else
    match sharedKeyFiles cfg with
    | Except.error e => Except.error e
    | Except.ok sf =>
      match cfg.tls with
      | none => Except.ok (some (cfg, sf))
      | some t =>
        match caFiles cfg t with
        | Except.error e => Except.error e
        | Except.ok (caf, crlFlag) =>
          match certFiles cfg t with
          | Except.error e => Except.error e
          | Except.ok (cf, pkFlag) =>
            match dhFiles cfg t with
            | Except.error e => Except.error e
            | Except.ok df =>
              match authKeyFiles cfg t with
              | Except.error e => Except.error e
              | Except.ok af =>
                match cryptKeyFiles cfg t with
                | Except.error e => Except.error e
                | Except.ok crf =>
                  let cfg2 := { cfg with
                    tls := some { t with
                      crl := t.crl || crlFlag,
                      private_key := t.private_key || pkFlag } }
                  Except.ok (some (cfg2, sf ++ caf ++ cf ++ df ++ af ++ crf))

/-- Line 623: `client_config['server_subnet'] = dict_search('server.subnet',
openvpn)`.  `client_config` aliases the record inside the configuration, so
the accepted record itself is updated for every client (only when the
client mapping is truthy, line 618). -/
def injectServerSubnets (cfg : OpenvpnConfig) : OpenvpnConfig :=
  match cfg.server with
  | none => cfg
  | some s =>
    if s.client.isEmpty then cfg
    else
      let v : Option (List String) := if s.subnet.isEmpty then none else some s.subnet
      { cfg with server := some { s with
          client := s.client.map (fun kv => (kv.1, { kv.2 with server_subnet := v })) } }

/-- `generate` (lines 586-637): purges and recreates the per-peer directory
(lifecycle state, not modelled as an artifact), stops early for
deleted/disabled interfaces, writes PKI artifacts, the optional
username/password file, per-client fragments and the main daemon config.
When `generate_pki_files` returned `None` (empty PKI), line 634 iterates
that `None` and raises `TypeError` — unreachable through the pipeline,
because `verify` requires a non-empty PKI for non-deleted configurations. -/
def generate (cfg : OpenvpnConfig) : Except VErr (OpenvpnConfig × List Artifact) :=
  if cfg.deleted || cfg.disable then Except.ok (cfg, [])
  else
    match generate_pki_files cfg with
    | Except.error e => Except.error e
    | Except.ok none =>
      -- `fix_permissions` is `None`; the renders of lines 607-631 do run
      -- first, but on any error this model reports no artifacts, so the
      -- `TypeError` of line 634 is raised here directly
      Except.error (VErr.typeError ("fix_permissions"))
    | Except.ok (some p) =>
      let cfg1 := p.1
      let pkiArts := p.2
      let authArts : List Artifact :=
        match cfg1.authentication with
        | some _ => [(cfg1.ifname ++ ".pw", FileContent.authUserPass)]
        | none => []
      let cfg2 := injectServerSubnets cfg1
      let fragArts := (serverClients cfg2).map (fun kv =>
        ("ccd/" ++ cfg2.ifname ++ "/" ++ kv.1, FileContent.clientFragment kv.1))
      let arts := pkiArts ++ authArts ++ fragArts ++
        [(cfg2.ifname ++ ".conf", FileContent.mainConfig)]
      Except.ok (cfg2, arts)

/-! ### Lifecycle applier (`apply`, lines 639-661) -/

/-- Observable runtime state: file basenames under `/run/openvpn`, whether
the service instance runs, whether the network-interface object exists. -/
structure RunState where
  files : List String := []
  serviceRunning : Bool := false
  ifaceExists : Bool := false
deriving DecidableEq

/-- The cleanup glob `/run/openvpn/{interface}.*` (line 645): a file matches
exactly when its basename starts with the interface name followed by a
dot. -/
def globMatchesInterface (interface f : String) : Bool :=
  (interface ++ ".").data.isPrefixOf f.data

/-- `apply` (lines 639-661): always stops the service first; for
deleted/disabled interfaces deletes the files matching the glob and removes
the network-interface object, otherwise starts the service (the `VTunIf`
runtime update is external). -/
def apply (cfg : OpenvpnConfig) (st : RunState) : RunState :=
  let st1 : RunState := { st with serviceRunning := false }
  if cfg.deleted || cfg.disable then
    { st1 with
      files := st1.files.filter (fun f => !(globMatchesInterface cfg.ifname f)),
      ifaceExists := false }
  else
    { st1 with serviceRunning := true }

/-! ### Pipeline (`__main__`, lines 664-672) -/

/-- The state a pipeline run can touch: the persistent TOTP credential
file, the runtime state, and the artifacts written so far. -/
structure PipeState where
  totp : TotpFS := none
  run : RunState := {}
  artifacts : List Artifact := []
deriving DecidableEq

/-- `__main__`: `verify`, then `generate`, then `apply`; the first
`ConfigError` (or uncaught exception) aborts the remaining stages. -/
def pipeline (env : Env) (cfg : OpenvpnConfig) (st : PipeState) :
    Except VErr Unit × PipeState :=
  match verify env cfg st.totp with
  | (Except.error e, fs1) => (Except.error e, { st with totp := fs1 })
  | (Except.ok _, fs1) =>
    match generate cfg with
    | Except.error e => (Except.error e, { st with totp := fs1 })
    | Except.ok (cfg2, arts) =>
      (Except.ok (), { totp := fs1, run := apply cfg2 st.run,
                       artifacts := st.artifacts ++ arts })

/-! ### Frame helpers: the generator-written fields -/

/-- Erase the two presence flags only the generator writes. -/
def TlsBlock.eraseGen (t : TlsBlock) : TlsBlock :=
  { t with crl := false, private_key := false }

/-- Erase the `server_subnet` copy only the generator injects. -/
def ClientRecord.eraseGen (c : ClientRecord) : ClientRecord :=
  { c with server_subnet := none }

/-- Erase generator-written fields of a server block. -/
def ServerBlock.eraseGen (s : ServerBlock) : ServerBlock :=
  { s with client := s.client.map (fun kv => (kv.1, ClientRecord.eraseGen kv.2)) }

/-- Erase every generator-written field of a configuration record: what is
left must be preserved by `generate`. -/
def OpenvpnConfig.eraseGen (cfg : OpenvpnConfig) : OpenvpnConfig :=
  { cfg with
    tls := cfg.tls.map TlsBlock.eraseGen,
    server := cfg.server.map ServerBlock.eraseGen }

/-- The configuration record after a successful `generate` (input record on
failure). -/
def genConfigAfter (cfg : OpenvpnConfig) : OpenvpnConfig :=
  match generate cfg with
  | Except.ok p => p.1
  | Except.error _ => cfg

/-- The artifacts a successful `generate` writes (empty on failure). -/
def genArtifactsAfter (cfg : OpenvpnConfig) : List Artifact :=
  match generate cfg with
  | Except.ok p => p.2
  | Except.error _ => []

/-! ### Concrete configurations used by the closed runs -/

/-- A PKI snapshot holding one CA (with a CRL), one EC-keyed leaf
certificate and two shared secrets. -/
def pkiValid : Pki := {
  ca := [("ca1", { certificate := some ("CA-CERT"), crl := ["CRL-1"] })],
  certificate := [("cert1",
    { certificate := some ("LEAF-CERT"), private_key := some ("LEAF-KEY"),
      password_protected := false, key_is_ec := true })],
  dh := [],
  shared_secret := [("k1", { key := some ("K1") }), ("k2", { key := some ("K2") })]
}

/-- A server-mode configuration that `verify` accepts: tun device,
subnet 10.8.0.0/24, one client at 10.8.0.5, TLS with CA and EC-keyed leaf
certificate. -/
def serverCfgValid : OpenvpnConfig := {
  ifname := "vtun0",
  mode := some ("server"),
  protocol := "udp",
  device_type := "tun",
  server := some { subnet := ["10.8.0.0/24"],
                   client := [("alice", { ip := ["10.8.0.5"] })] },
  tls := some { ca_certificate := some ("ca1"), certificate := some ("cert1") },
  pki := pkiValid
}

/-- `serverCfgValid` with 2FA/TOTP enabled and a TLS block carrying both an
auth key and a crypt key — rejected by the mutual-exclusivity constraint of
the common section, which runs after the server-mode group. -/
def cfgC1 : OpenvpnConfig := { serverCfgValid with
  server := some { subnet := ["10.8.0.0/24"], client := [("alice", {})], totp := true },
  tls := some { ca_certificate := some ("ca1"), certificate := some ("cert1"),
                auth_key := some ("k1"), crypt_key := some ("k2") }
}

/-- `serverCfgValid` with 2FA/TOTP enabled: one configured client
"alice". -/
def cfgC2 : OpenvpnConfig := { serverCfgValid with
  server := some { subnet := ["10.8.0.0/24"],
                   client := [("alice", { ip := ["10.8.0.5"] })], totp := true }
}

/-- A pre-existing TOTP database entry for client "alice". -/
def c2OldLine : String := totpLine ("alice") ("AAAAAAAAAAAAAAAA")

/-- `serverCfgValid` with client "alice" at 10.9.9.9 — outside the server
subnet 10.8.0.0/24. -/
def cfgC3 : OpenvpnConfig := { serverCfgValid with
  server := some { subnet := ["10.8.0.0/24"],
                   client := [("alice", { ip := ["10.9.9.9"] })] }
}

/-- A site-to-site bridge member with no local address. -/
def cfgC4 : OpenvpnConfig := {
  ifname := "vtun1",
  mode := some ("site-to-site"),
  is_bridge_member := true
}

/-- `serverCfgValid` with the pool 10.0.0.10 – 10.0.0.20 (size 10). -/
def cfgC5ok : OpenvpnConfig := { serverCfgValid with
  server := some { subnet := ["10.8.0.0/24"],
                   client := [("alice", { ip := ["10.8.0.5"] })],
                   client_ip_pool := some { start := some ("10.0.0.10"),
                                            stop := some ("10.0.0.20") } }
}

/-- `serverCfgValid` with the pool 10.0.0.10 – 10.1.0.10 (size 65536). -/
def cfgC5big : OpenvpnConfig := { serverCfgValid with
  server := some { subnet := ["10.8.0.0/24"],
                   client := [("alice", { ip := ["10.8.0.5"] })],
                   client_ip_pool := some { start := some ("10.0.0.10"),
                                            stop := some ("10.1.0.10") } }
}

/-- `serverCfgValid` with a single-address pool (start = stop). -/
def cfgC10 : OpenvpnConfig := { serverCfgValid with
  server := some { subnet := ["10.8.0.0/24"],
                   client := [("alice", { ip := ["10.8.0.5"] })],
                   client_ip_pool := some { start := some ("10.0.0.10"),
                                            stop := some ("10.0.0.10") } }
}

/-- A site-to-site configuration with IPv4 local and remote addresses,
otherwise valid for unauthenticated operation: no shared secret and no
TLS block. -/
def cfgC7 : OpenvpnConfig := {
  ifname := "vtun1",
  mode := some ("site-to-site"),
  protocol := "udp",
  device_type := "tun",
  local_address := some [{ addr := "10.1.1.1" }],
  remote_address := some ["10.1.1.2"],
  pki := pkiValid
}

/-- A TLS block declaring `tls role active` with no auth key. -/
def tlsRoleActive : TlsBlock := {
  ca_certificate := some ("ca1"),
  certificate := some ("cert1"),
  role := some ("active")
}

/-- `cfgC7` plus a full TLS block declaring `tls role active` and no auth
key. -/
def cfgC6s2s : OpenvpnConfig := { cfgC7 with tls := some tlsRoleActive }

/-- A client-mode configuration declaring `tls role active` with no auth
key. -/
def cfgC6client : OpenvpnConfig := {
  ifname := "vtun2",
  mode := some ("client"),
  protocol := "udp",
  device_type := "tun",
  remote_host := some ("203.0.113.10"),
  tls := some tlsRoleActive,
  pki := pkiValid
}

/-- A deleted interface vtun0. -/
def cfgC9del : OpenvpnConfig := { ifname := "vtun0", deleted := true }

/-- Runtime state before `apply`: the daemon config and password file
(dot-named) plus two credential artifacts (underscore-named). -/
def stC9 : RunState := {
  files := ["vtun0.conf", "vtun0.pw", "vtun0_ca.pem", "vtun0_cert.key"],
  serviceRunning := true,
  ifaceExists := true
}

/-! ### Helper lemmas -/

/-- `verify` leaves the TOTP credential file untouched unless the
configuration is a server-mode one with 2FA/TOTP enabled. -/
theorem verify_fs_frame (env : Env) (cfg : OpenvpnConfig) (fs : TotpFS)
    (h : ¬(cfg.mode = some ("server") ∧ serverTotpEnabled cfg = true)) :
    (verify env cfg fs).2 = fs := by
  have htotp : cfg.mode = some ("server") → totpUpdate env cfg fs = fs := by
    intro hm
    have : serverTotpEnabled cfg = false := by
      cases hb : serverTotpEnabled cfg
      · rfl
      · exact absurd ⟨hm, hb⟩ h
    simp [totpUpdate, this]
  by_cases hd : cfg.deleted = true
  · simp [verify, hd]
  · rcases hmode : cfg.mode with _ | m
    · simp [verify, hd, hmode]
    · rcases he1 : (if m = "client" then verifyClientMode cfg
                    else if m = "site-to-site" then verifySiteToSite cfg
                    else verifyOtherModes cfg) with _ | e
      · by_cases hs : m = "server"
        · subst hs
          simp at he1
          have hm' : cfg.mode = some ("server") := hmode
          rcases hsp : verifyServerPure cfg with _ | e
          · rcases hcc : verifyCommon env cfg with _ | e <;>
              simp [verify, hd, hmode, he1, hsp, hcc, htotp hm']
          · simp [verify, hd, hmode, he1, hsp]
        · rcases hns : verifyNonServer cfg with _ | e
          · rcases hcc : verifyCommon env cfg with _ | e <;>
              simp [verify, hd, hmode, he1, hs, hns, hcc]
          · simp [verify, hd, hmode, he1, hs, hns]
      · simp [verify, hd, hmode, he1]

/-- `generate_pki_files` only writes the `tls.crl` / `tls.private_key`
presence flags of the record. -/
theorem gpf_eraseGen (cfg c1 : OpenvpnConfig) (arts : List Artifact)
    (h : generate_pki_files cfg = Except.ok (some (c1, arts))) :
    OpenvpnConfig.eraseGen c1 = OpenvpnConfig.eraseGen cfg := by
  unfold generate_pki_files at h
  split at h
  · simp at h
  · split at h
    · simp at h
    · split at h
      · simp at h
        rw [h.1]
      · rename_i t htls
        split at h
        · simp at h
        · split at h
          · simp at h
          · split at h
            · simp at h
            · split at h
              · simp at h
              · split at h
                · simp at h
                · simp at h
                  rw [← h.1]
                  cases cfg with
                  | mk a b c d e f g h1 i j k l m n o tl sv p q r =>
                    change tl = some t at htls
                    subst htls
                    rfl

/-- Injecting `server_subnet` into the client records does not change the
erased record. -/
theorem inject_eraseGen (cfg : OpenvpnConfig) :
    OpenvpnConfig.eraseGen (injectServerSubnets cfg) = OpenvpnConfig.eraseGen cfg := by
  unfold injectServerSubnets
  split
  · rfl
  · rename_i s hsv
    split
    · rfl
    · cases cfg with
      | mk a b c d e f g h1 i j k l m n o tl sv p q r =>
        change sv = some s at hsv
        subst hsv
        simp only [OpenvpnConfig.eraseGen, ServerBlock.eraseGen, Option.map_some']
        congr 2
        rw [List.map_map]
        rfl

/-! ### Claim theorems -/

/-- C1, counterexample: a server-mode configuration with 2FA/TOTP enabled
(`cfgC1`) that is rejected by the TLS auth/crypt mutual-exclusivity
constraint — checked after the server-mode group — nevertheless has its
TOTP credential file created and written before the rejection, so the
filesystem is not as it was when validation began. -/
theorem c1_counterexample :
    (verify defaultEnv cfgC1 none).1 =
      Except.error (VErr.configError ("TLS auth and crypt keys are mutually exclusive"))
    ∧ (verify defaultEnv cfgC1 none).2 =
      some [totpLine ("alice") ("BBBBBBBBBBBBBBBB")]
    ∧ (verify defaultEnv cfgC1 none).2 ≠ (none : TotpFS) := by
  refine ⟨rfl, rfl, by decide⟩

/-- C1 (amended): for every configuration that validation rejects, no
artifact is generated and the runtime state is untouched (generator and
applier never run); the filesystem is also unchanged unless the
configuration is server-mode with 2FA/TOTP enabled, in which case the TOTP
credential file may be reconciled before a rejection raised by a constraint
checked after the server-mode group. -/
theorem c1_amended (env : Env) (cfg : OpenvpnConfig) (st : PipeState) (e : VErr)
    (hrej : (verify env cfg st.totp).1 = Except.error e) :
    (pipeline env cfg st).2.run = st.run
    ∧ (pipeline env cfg st).2.artifacts = st.artifacts
    ∧ (¬(cfg.mode = some ("server") ∧ serverTotpEnabled cfg = true) →
        (pipeline env cfg st).2.totp = st.totp) := by
  rcases hv : verify env cfg st.totp with ⟨r, fs1⟩
  rw [hv] at hrej
  simp only at hrej
  subst hrej
  refine ⟨by simp [pipeline, hv], by simp [pipeline, hv], ?_⟩
  intro hns
  have := verify_fs_frame env cfg st.totp hns
  rw [hv] at this
  simp only at this
  simp [pipeline, hv, this]

/-- C1 amended, witness: instantiated at the rejected site-to-site
configuration `cfgC7` (no 2FA/TOTP), a fresh pipeline state. -/
theorem c1_amended_witness :
    (pipeline defaultEnv cfgC7 {}).2.run = ({} : PipeState).run
    ∧ (pipeline defaultEnv cfgC7 {}).2.artifacts = ({} : PipeState).artifacts
    ∧ (¬(cfgC7.mode = some ("server") ∧ serverTotpEnabled cfgC7 = true) →
        (pipeline defaultEnv cfgC7 {}).2.totp = ({} : PipeState).totp) :=
  c1_amended defaultEnv cfgC7 {}
    (VErr.configError ("Must specify only one of \"shared-secret-key\" and \"tls\"")) rfl

/-- C2: the code contradicts the specified reconciliation.  With client
"alice" already present in the TOTP database, `totpUpdate` (lines 374-393)
does not keep the existing entry verbatim: line 380 matches the pattern
against the constant `user` ("openvpn") instead of the file line, so no
existing entry is ever recognised and a freshly generated secret replaces
it — in particular the run is not idempotent on the database content. -/
theorem c2_totp_entry_regenerated :
    totpUpdate defaultEnv cfgC2 (some [c2OldLine]) =
      some [totpLine ("alice") (defaultEnv.totpSecret 0)]
    ∧ totpUpdate defaultEnv cfgC2 (some [c2OldLine]) ≠ some [c2OldLine] := by
  refine ⟨rfl, by decide⟩

/-- C3: the code never enforces client-subnet containment.  `cfgC3` is a
server-mode configuration whose client "alice" has the explicit address
10.9.9.9 outside the server subnet 10.8.0.0/24 (second conjunct), yet
validation accepts it: the containment loop (line 309) iterates the
always-absent top-level `client` key instead of `server.client`. -/
theorem c3_containment_never_checked :
    (verify defaultEnv cfgC3 none).1 = Except.ok ()
    ∧ ipv4InSubnet ("10.9.9.9") ("10.8.0.0/24") = some false := ⟨rfl, rfl⟩

/-- C4: the code fails internally on the claimed configuration.  A
site-to-site bridge member without a local address passes the
local-address-requirement check but the very next statement (line 212)
reads `openvpn['local_address']` unguarded, raising `KeyError` — an
internal error the `ConfigError` handler does not catch, not a user-facing
constraint error. -/
theorem c4_keyerror_on_bridge_member :
    verify defaultEnv cfgC4 none = (Except.error (VErr.keyError ("local_address")), none) := rfl

/-- C5: client-ip-pool validation (lines 322-333).  A pool with a missing
start or stop bound is rejected; a pool whose start parses above its stop
is rejected; a pool whose computed size `stop - start` is ≥ 65536 is
rejected; the concrete pool 10.0.0.10 – 10.0.0.20 computes to size 10 and
the full validation run accepts it, while 10.0.0.10 – 10.1.0.10 is
rejected. -/
theorem c5_client_ip_pool_validation :
    (∀ p : ClientIpPool, p.start = none ∨ p.stop = none →
      checkClientIpPool (some p) = Except.error (VErr.configError
        ("Server client-ip-pool requires both start and stop addresses")))
    ∧ (∀ s t a b, parseIPv4 s = some a → parseIPv4 t = some b → a > b →
      checkClientIpPool (some { start := some s, stop := some t }) =
        Except.error (VErr.configError
          ("Server client-ip-pool start address " ++ ipv4Str a ++
            " is larger than stop address " ++ ipv4Str b)))
    ∧ (∀ s t a b, parseIPv4 s = some a → parseIPv4 t = some b → a ≤ b →
        65536 ≤ b - a →
      checkClientIpPool (some { start := some s, stop := some t }) =
        Except.error (VErr.configError
          ("Server client-ip-pool is too large [" ++ ipv4Str a ++ " -> " ++
            ipv4Str b ++ " = " ++ toString (b - a) ++ "], maximum is 65536 addresses.")))
    ∧ checkClientIpPool (some { start := some ("10.0.0.10"), stop := some ("10.0.0.20") }) =
        Except.ok (some 10)
    ∧ (verify defaultEnv cfgC5ok none).1 = Except.ok ()
    ∧ (verify defaultEnv cfgC5big none).1 = Except.error (VErr.configError
        ("Server client-ip-pool is too large [10.0.0.10 -> 10.1.0.10 = 65536], maximum is 65536 addresses.")) := by
  refine ⟨?_, ?_, ?_, rfl, rfl, rfl⟩
  · rintro ⟨st, sp⟩ (h | h) <;> subst h
    · rfl
    · cases st <;> rfl
  · intro s t a b hs ht hab
    simp only [checkClientIpPool, hs, ht]
    rw [if_pos hab]
  · intro s t a b hs ht hab hsize
    simp only [checkClientIpPool, hs, ht]
    rw [if_neg (by omega), if_pos hsize]

/-- C5, witness: the universally quantified parts instantiated at concrete
pools — missing stop bound, start 10.0.0.30 above stop 10.0.0.20, and the
oversized pool 10.0.0.0 – 10.2.0.0 (size 131072). -/
theorem c5_client_ip_pool_validation_witness :
    checkClientIpPool (some { start := some ("10.0.0.10"), stop := none }) =
      Except.error (VErr.configError
        ("Server client-ip-pool requires both start and stop addresses"))
    ∧ checkClientIpPool (some { start := some ("10.0.0.30"), stop := some ("10.0.0.20") }) =
      Except.error (VErr.configError
        ("Server client-ip-pool start address 10.0.0.30 is larger than stop address 10.0.0.20"))
    ∧ checkClientIpPool (some { start := some ("10.0.0.0"), stop := some ("10.2.0.0") }) =
      Except.error (VErr.configError
        ("Server client-ip-pool is too large [10.0.0.0 -> 10.2.0.0 = 131072], maximum is 65536 addresses.")) := by
  refine ⟨c5_client_ip_pool_validation.1 _ (Or.inr rfl), ?_, ?_⟩
  · exact c5_client_ip_pool_validation.2.1 ("10.0.0.30") ("10.0.0.20")
      167772190 167772180 rfl rfl (by decide)
  · exact c5_client_ip_pool_validation.2.2.1 ("10.0.0.0") ("10.2.0.0")
      167772160 167903232 rfl rfl (by decide) (by decide)

/-- C10: a pool with start equal to stop is accepted (only a start strictly
above the stop triggers the bound-order rejection), and the computed pool
size is the plain difference `stop - start` — one less than the number of
addresses in the inclusive range, so a single-address pool has size 0; the
full validation run accepts `cfgC10`, whose pool is the single address
10.0.0.10. -/
theorem c10_pool_size_semantics :
    (∀ s a, parseIPv4 s = some a →
      checkClientIpPool (some { start := some s, stop := some s }) = Except.ok (some 0))
    ∧ (∀ s t a b, parseIPv4 s = some a → parseIPv4 t = some b → a ≤ b →
        b - a < 65536 →
      checkClientIpPool (some { start := some s, stop := some t }) =
        Except.ok (some (b - a)))
    ∧ (verify defaultEnv cfgC10 none).1 = Except.ok () := by
  refine ⟨?_, ?_, rfl⟩
  · intro s a hs
    simp only [checkClientIpPool, hs]
    rw [if_neg (by omega), if_neg (by omega)]
    simp
  · intro s t a b hs ht hab hsize
    simp only [checkClientIpPool, hs, ht]
    rw [if_neg (by omega), if_neg (by omega)]

/-- C10, witness: the single-address pool at 10.0.0.10 and the ten-address
pool 10.0.0.10 – 10.0.0.20. -/
theorem c10_pool_size_semantics_witness :
    checkClientIpPool (some { start := some ("10.0.0.10"), stop := some ("10.0.0.10") }) =
      Except.ok (some 0)
    ∧ checkClientIpPool (some { start := some ("10.0.0.10"), stop := some ("10.0.0.20") }) =
      Except.ok (some 10) := by
  refine ⟨c10_pool_size_semantics.1 ("10.0.0.10") 167772170 rfl, ?_⟩
  exact c10_pool_size_semantics.2.1 ("10.0.0.10") ("10.0.0.20")
    167772170 167772180 rfl rfl (by decide) (by decide)

/-- C6, counterexample: the claim inverts the code's condition.  A
site-to-site configuration declaring `tls role active` with no auth key
(`cfgC6s2s`) is accepted, although the claim says it must be rejected; a
client-mode configuration declaring the same role with no auth key
(`cfgC6client`) is rejected by exactly this constraint, although the claim
says declaring a role in client mode does not by itself trigger it. -/
theorem c6_counterexample :
    (verify defaultEnv cfgC6s2s none).1 = Except.ok ()
    ∧ (verify defaultEnv cfgC6client none).1 =
        Except.error (VErr.configError ("Cannot specify \"tls role\" in client-server mode")) :=
  ⟨rfl, rfl⟩

/-- C6 (amended): declaring a `tls.role` while the mode is client or server
is rejected unless a tls auth-key is configured (lines 437-439); a
`tls.role` declared in site-to-site mode does not by itself trigger this
rejection (for role "active" only the tcp-passive and dh-params
restrictions apply). -/
theorem c6_amended :
    (∀ (cfg : OpenvpnConfig) (t : TlsBlock) (r : String), t.role = some r →
      (cfg.mode = some ("client") ∨ cfg.mode = some ("server")) →
      t.auth_key = none →
      tlsChecks cfg t = some (VErr.configError
        ("Cannot specify \"tls role\" in client-server mode")))
    ∧ (∀ (cfg : OpenvpnConfig) (t : TlsBlock), cfg.mode = some ("site-to-site") →
      t.role = some ("active") → t.auth_key = none →
      cfg.protocol ≠ "tcp-passive" → t.dh_params = none →
      tlsChecks cfg t = none) := by
  constructor
  · intro cfg t r hr hm ha
    rcases hm with hm | hm <;> simp [tlsChecks, rejectMsg, hr, ha, hm]
  · intro cfg t hm hr ha hp hd
    simp [tlsChecks, rejectMsg, hr, ha, hm, hp, hd]

/-- C6 amended, witness: both parts instantiated at the concrete client-mode
and site-to-site TLS blocks of `cfgC6client` / `cfgC6s2s`. -/
theorem c6_amended_witness :
    tlsChecks cfgC6client tlsRoleActive =
      some (VErr.configError ("Cannot specify \"tls role\" in client-server mode"))
    ∧ tlsChecks cfgC6s2s tlsRoleActive = none := by
  constructor
  · exact c6_amended.1 cfgC6client tlsRoleActive ("active") rfl (Or.inl rfl) rfl
  · exact c6_amended.2 cfgC6s2s tlsRoleActive rfl rfl rfl (by decide) rfl

/-- C7, counterexample: a site-to-site configuration otherwise valid for
unauthenticated operation that omits both the pre-shared secret key and the
TLS block (`cfgC7`) is not accepted: the exclusivity check of `verify_pki`
(line 114) rejects "neither" in every mode. -/
theorem c7_counterexample :
    (verify defaultEnv cfgC7 none).1 = Except.error (VErr.configError
      ("Must specify only one of \"shared-secret-key\" and \"tls\"")) := rfl

/-- C7 (amended): exactly one of a pre-shared secret key or a TLS block
must be configured in every mode — a configuration with both is rejected
and a configuration with neither is rejected, site-to-site included; client
and server modes additionally require that the configured one be TLS. -/
theorem c7_amended :
    (∀ cfg : OpenvpnConfig, cfg.shared_secret_key.isSome = cfg.tls.isSome →
      verify_pki cfg = some (VErr.configError
        ("Must specify only one of \"shared-secret-key\" and \"tls\"")))
    ∧ (∀ cfg : OpenvpnConfig,
        (cfg.mode = some ("server") ∨ cfg.mode = some ("client")) →
        cfg.tls = none → cfg.shared_secret_key.isSome = true →
      verify_pki cfg = some (VErr.configError
        ("Must specify \"tls\" for server and client modes"))) := by
  constructor
  · intro cfg h
    simp [verify_pki, rejectMsg, h]
  · intro cfg hm htls hsh
    rcases hm with hm | hm <;> simp [verify_pki, rejectMsg, hm, htls, hsh]

/-- C7 amended, witness: instantiated at `cfgC7` (neither mechanism) and at
a server-mode configuration carrying only a shared secret. -/
theorem c7_amended_witness :
    verify_pki cfgC7 = some (VErr.configError
      ("Must specify only one of \"shared-secret-key\" and \"tls\""))
    ∧ verify_pki { serverCfgValid with tls := none, shared_secret_key := some ("k1") } =
      some (VErr.configError ("Must specify \"tls\" for server and client modes")) := by
  constructor
  · exact c7_amended.1 cfgC7 rfl
  · exact c7_amended.2 _ (Or.inl rfl) rfl rfl

/-- C8, counterexample: `serverCfgValid` is accepted by validation (second
conjunct), yet running the generator does not leave the record equal to its
value at acceptance time — the `tls.crl` / `tls.private_key` flags and the
per-client `server_subnet` are written into the accepted record itself, not
into a separate derived view. -/
theorem c8_counterexample :
    genConfigAfter serverCfgValid ≠ serverCfgValid
    ∧ (verify defaultEnv serverCfgValid none).1 = Except.ok () :=
  ⟨by decide, rfl⟩

/-- C8 (amended): the generator preserves every field of the input record
except the three generator-written ones — the `tls.crl` and
`tls.private_key` presence flags and the `server_subnet` injected into each
server client record: erasing exactly those fields, the record after a
successful `generate` equals the record before it. -/
theorem c8_amended (cfg cfg2 : OpenvpnConfig) (arts : List Artifact)
    (h : generate cfg = Except.ok (cfg2, arts)) :
    OpenvpnConfig.eraseGen cfg2 = OpenvpnConfig.eraseGen cfg := by
  unfold generate at h
  split at h
  · simp at h
    rw [← h.1]
  · split at h
    · simp at h
    · simp at h
    · rename_i pr hg
      simp at h
      calc OpenvpnConfig.eraseGen cfg2
          = OpenvpnConfig.eraseGen (injectServerSubnets pr.1) := by rw [← h.1]
        _ = OpenvpnConfig.eraseGen pr.1 := inject_eraseGen pr.1
        _ = OpenvpnConfig.eraseGen cfg := gpf_eraseGen cfg pr.1 pr.2 hg

/-- C8 amended, witness: instantiated at the accepted configuration
`serverCfgValid` and its concrete generator output. -/
theorem c8_amended_witness :
    OpenvpnConfig.eraseGen (genConfigAfter serverCfgValid) =
      OpenvpnConfig.eraseGen serverCfgValid :=
  c8_amended serverCfgValid (genConfigAfter serverCfgValid)
    (genArtifactsAfter serverCfgValid) rfl

/-- C9, counterexample: applying the lifecycle step to the deleted
interface vtun0 with runtime files `vtun0.conf`, `vtun0.pw`,
`vtun0_ca.pem`, `vtun0_cert.key` removes only the dot-named files — the
cleanup glob `<ifname>.*` (line 645) does not match the underscore-named
credential/PKI artifacts `<ifname>_...`, which remain. -/
theorem c9_counterexample :
    (apply cfgC9del stC9).files = ["vtun0_ca.pem", "vtun0_cert.key"]
    ∧ ((apply cfgC9del stC9).files).contains ("vtun0_ca.pem") = true :=
  ⟨rfl, rfl⟩

/-- C9 (amended): for every deleted or disabled configuration the applier
stops the daemon and does not restart it, removes exactly the runtime files
matching `<ifname>.*` (leaving the underscore-named credential/PKI
artifacts in place), and tears down the network-interface object. -/
theorem c9_amended (cfg : OpenvpnConfig) (st : RunState)
    (h : cfg.deleted = true ∨ cfg.disable = true) :
    apply cfg st = { files := st.files.filter (fun f => !(globMatchesInterface cfg.ifname f)),
                     serviceRunning := false, ifaceExists := false } := by
  unfold apply
  rcases h with h | h <;> simp [h]

/-- C9 amended, witness: instantiated at the deleted interface `cfgC9del`
and the runtime state `stC9`. -/
theorem c9_amended_witness :
    apply cfgC9del stC9 =
      { files := stC9.files.filter (fun f => !(globMatchesInterface cfgC9del.ifname f)),
        serviceRunning := false, ifaceExists := false } :=
  c9_amended cfgC9del stC9 (Or.inl rfl)

end Openvpn
